import Mathlib

/-!
# Verification of the GA4 reporting worker (`src/worker/ga4.ts`)

This file gives a shallow embedding of the GA4 report builder and
encoder/sender from `src/worker/ga4.ts` of the `dotland` repository, and
settles the claims of the specification against it.

Conventions of the embedding:
* JavaScript `undefined` is `Option.none`; the `Primitive` type mirrors the
  TypeScript union `bigint | boolean | null | number | string` (JS numbers are
  modelled as integers — the program only ever puts integers in them).
* A JS `Record<string, string>` built by insertion is modelled as an
  insertion-ordered association list `List (String × String)`; assigning to an
  existing key overwrites in place, assigning a fresh key appends.
* Platform collaborators that are not part of the repository (the WHATWG URL
  parser, `decodeURIComponent`, `crypto.subtle.digest("SHA-1", ·)`, the
  `snakeCase` helper from `deno.land/x/case`, and the `STATUS_TEXT` table of
  the Deno standard library) are modelled as faithful executable Lean
  functions, documented at their definitions.
* Code that can throw is modelled with `Option`/`Except`.
-/

deriving instance DecidableEq for Except

namespace GA4

/-- The TypeScript union `Primitive = bigint | boolean | null | number | string`
(`src/worker/ga4.ts` line 10).  JS numbers are modelled as `Int`. -/
inductive Primitive where
  | pBigInt (i : Int)
  | pBool (b : Bool)
  | pNull
  | pNum (n : Int)
  | pStr (s : String)
deriving Repr, DecidableEq

/-- JavaScript `String(value)` on a `Primitive` value:
`String(5n) = "5"`, `String(true) = "true"`, `String(null) = "null"`,
`String(42) = "42"`, strings unchanged. -/
def primToString : Primitive → String
  | .pBigInt i => toString i
  | .pBool b => if b then "true" else "false"
  | .pNull => "null"
  | .pNum n => toString n
  | .pStr s => s

/-- `typeof value === "number" || typeof value === "bigint"`. -/
def isNumericPrim : Primitive → Bool
  | .pBigInt _ => true
  | .pNum _ => true
  | _ => false

/-- JS assignment `params[name] = v` on an insertion-ordered string record:
an existing key is overwritten in place, a fresh key is appended. -/
def jsInsert (ps : List (String × String)) (k v : String) : List (String × String) :=
  if ps.any (fun p => p.1 == k) then
    ps.map (fun p => if p.1 == k then (k, v) else p)
  else
    ps ++ [(k, v)]

/-- `maybeAddShortParam` (`src/worker/ga4.ts` lines 353–365): omit when the
value is `null`/`undefined` (`value == null`), encode booleans as `"1"`/`"0"`,
and every other value as `String(value)`. -/
def maybeAddShortParam (ps : List (String × String)) (name : String)
    (value : Option Primitive) : List (String × String) :=
  match value with
  | none => ps
  | some .pNull => ps
  | some (.pBool b) => jsInsert ps name (if b then "1" else "0")
  | some v => jsInsert ps name (primToString v)

/-- Camel-hump splitting of the `snakeCase` helper (external module
`deno.land/x/case@2.1.1`): insert a separator between a lower-case letter or
digit and an upper-case letter, and between an upper-case letter and an
upper-case letter followed by a lower-case letter. -/
def camelSplit : List Char → List Char
  | [] => []
  | [a] => [a]
  | a :: b :: rest =>
    if (a.isLower || a.isDigit) && b.isUpper then
      a :: '\x00' :: camelSplit (b :: rest)
    else if a.isUpper && b.isUpper &&
        (match rest with | c :: _ => c.isLower | [] => false) then
      a :: '\x00' :: camelSplit (b :: rest)
    else
      a :: camelSplit (b :: rest)

/-- Helper for `alnumTokens`: `cur` is the current (reversed) token. -/
def alnumTokensAux (cur : List Char) : List Char → List (List Char)
  | [] => if cur.isEmpty then [] else [cur.reverse]
  | c :: rest =>
    if c.isAlphanum then alnumTokensAux (c :: cur) rest
    else if cur.isEmpty then alnumTokensAux [] rest
    else cur.reverse :: alnumTokensAux [] rest

/-- Maximal runs of alphanumeric characters (everything else is a separator). -/
def alnumTokens (cs : List Char) : List (List Char) :=
  alnumTokensAux [] cs

/-- The `snakeCase` function of `deno.land/x/case@2.1.1` (external dependency
imported at `src/worker/ga4.ts` line 5): split camel humps, treat
non-alphanumeric characters as separators, lower-case the words and join them
with `"_"`. -/
def snakeCase (s : String) : String :=
  String.intercalate "_"
    ((alnumTokens (camelSplit s.toList)).map (fun t => String.mk (t.map Char.toLower)))

/-- `maybeAddCustomEventParam` (`src/worker/ga4.ts` lines 367–382): omit only
when the value is strictly `undefined` (`value === undefined`); snake-case the
name; use key `"<prefix>n.<name>"` for `number`/`bigint` values and
`"<prefix>.<name>"` otherwise; the value is `String(value)`. -/
def maybeAddCustomEventParam (ps : List (String × String)) (pfx name : String)
    (value : Option Primitive) : List (String × String) :=
  match value with
  | none => ps
  | some v =>
    let n := snakeCase name
    if isNumericPrim v then
      jsInsert ps (pfx ++ "n." ++ n) (primToString v)
    else
      jsInsert ps (pfx ++ "." ++ n) (primToString v)

/-- The wire key a custom parameter is emitted under (spec §4.2 step 6). -/
def wireKey (pfx name : String) (v : Primitive) : String :=
  if isNumericPrim v then pfx ++ "n." ++ snakeCase name else pfx ++ "." ++ snakeCase name

/-! ## Data model (`src/worker/ga4.ts` lines 10–68) -/

/-- `Client` (lines 22–27).  `headers` is the filtered header list, modelled as
an association list of header name/value pairs. -/
structure Client where
  id : Option String
  ip : Option String
  language : Option String
  headers : List (String × String)
deriving Repr, DecidableEq

/-- `User` (lines 29–32). -/
structure User where
  id : Option String
  properties : List (String × Primitive)
deriving Repr, DecidableEq

/-- `Session` (lines 34–40). -/
structure Session where
  id : String
  number : Nat
  engaged : Bool
  start : Option Bool
  hitCount : Nat
deriving Repr, DecidableEq

/-- `Page` (lines 42–50). -/
structure Page where
  location : String
  title : String
  referrer : Option String
  ignoreReferrer : Option Bool
  trafficType : Option String
  firstVisit : Option Bool
  newToSite : Option Bool
deriving Repr, DecidableEq

/-- `Campaign` (lines 51–58). -/
structure Campaign where
  source : String
  medium : String
  id : Option String
  name : Option String
  content : Option String
  term : Option String
deriving Repr, DecidableEq

/-- `Event` (lines 60–65).  `params` is an insertion-ordered record. -/
structure Event where
  name : String
  category : Option String
  label : Option String
  params : List (String × Primitive)
deriving Repr, DecidableEq

/-- The `GA4Report` aggregate (lines 12–20).  The events list's head slot is
the (nullable) primary event; `none` entries are falsy. -/
structure GA4Report where
  measurementId : Option String
  client : Client
  user : User
  session : Option Session
  campaign : Option Campaign
  page : Page
  events : List (Option Event)
deriving Repr, DecidableEq

/-- The primary event: getter `get event()` (lines 99–101), the first slot of
the events list. -/
def GA4Report.event (r : GA4Report) : Option Event :=
  r.events.headD none

/-! ## Platform collaborators (modelled external APIs) -/

/-- Incoming HTTP request: the fields of the platform `Request` object that
`ga4.ts` reads (method, url, headers). -/
structure RequestM where
  method : String
  url : String
  headers : List (String × String)
deriving Repr, DecidableEq

/-- HTTP response object: the fields that `ga4.ts` reads (status, statusText). -/
structure ResponseM where
  status : Nat
  statusText : String
deriving Repr, DecidableEq

/-- JS `String.prototype.toLowerCase` (ASCII). -/
def jsToLower (s : String) : String :=
  String.mk (s.toList.map Char.toLower)

/-- `Headers.get(name)`: case-insensitive lookup, `null` when absent. -/
def headerGet (hs : List (String × String)) (name : String) : Option String :=
  (hs.find? (fun h => jsToLower h.1 == name)).map (fun h => h.2)

/-- Result of the platform WHATWG `new URL(...)` parser: the two components
`ga4.ts` reads. -/
structure UrlM where
  host : String
  pathname : String
deriving Repr, DecidableEq

/-- Splits `scheme "://" rest`, scanning for the first `"://"`. -/
def splitScheme : List Char → Option (List Char × List Char)
  | [] => none
  | ':' :: '/' :: '/' :: rest => some ([], rest)
  | c :: rest => (splitScheme rest).map (fun p => (c :: p.1, p.2))

/-- Models the platform WHATWG URL parser (`new URL(s)`) for absolute
`scheme://host/path` URLs: requires a letter-initial scheme followed by
`"://"` and a non-empty host (else the constructor throws, modelled as
`none`); the host is lower-cased; the pathname defaults to `"/"`.
Ports/userinfo/percent normalization are not modelled — the program only ever
compares hosts for equality and reads the pathname. -/
def parseUrl (s : String) : Option UrlM :=
  match splitScheme s.toList with
  | none => none
  | some (scheme, rest) =>
    let schemeOk :=
      match scheme with
      | [] => false
      | c :: cs => c.isAlpha && cs.all (fun d => d.isAlphanum || d == '+' || d == '-' || d == '.')
    if schemeOk then
      let host := rest.takeWhile (fun c => c != '/' && c != '?' && c != '#')
      if host.isEmpty then none
      else
        let after := rest.drop host.length
        let path := after.takeWhile (fun c => c != '?' && c != '#')
        some { host := String.mk (host.map Char.toLower),
               pathname := if path.isEmpty then "/" else String.mk path }
    else none

/-- UTF-8 encoding of one character (used to model `TextEncoder` and the byte
level of `decodeURIComponent`). -/
def utf8EncodeCharBytes (c : Char) : List Nat :=
  let n := c.toNat
  if n < 128 then [n]
  else if n < 2048 then [192 + n / 64, 128 + n % 64]
  else if n < 65536 then [224 + n / 4096, 128 + n / 64 % 64, 128 + n % 64]
  else [240 + n / 262144, 128 + n / 4096 % 64, 128 + n / 64 % 64, 128 + n % 64]

/-- UTF-8 encoding of a string as a byte list (models `new TextEncoder().encode`). -/
def utf8Encode (s : String) : List Nat :=
  (s.toList.map utf8EncodeCharBytes).flatten

/-- Strict UTF-8 decoding of a byte list (rejecting overlong forms and
surrogates), `none` on invalid input. -/
def utf8Decode : List Nat → Option (List Char)
  | [] => some []
  | b :: rest =>
    if b < 128 then (utf8Decode rest).map (fun cs => Char.ofNat b :: cs)
    else if 194 ≤ b && b ≤ 223 then
      match rest with
      | c :: rest2 =>
        if 128 ≤ c && c ≤ 191 then
          (utf8Decode rest2).map (fun cs => Char.ofNat ((b - 192) * 64 + (c - 128)) :: cs)
        else none
      | [] => none
    else if 224 ≤ b && b ≤ 239 then
      match rest with
      | c :: d :: rest3 =>
        let lo := if b = 224 then 160 else 128
        let hi := if b = 237 then 159 else 191
        if lo ≤ c && c ≤ hi && 128 ≤ d && d ≤ 191 then
          (utf8Decode rest3).map
            (fun cs => Char.ofNat ((b - 224) * 4096 + (c - 128) * 64 + (d - 128)) :: cs)
        else none
      | _ => none
    else if 240 ≤ b && b ≤ 244 then
      match rest with
      | c :: d :: e :: rest4 =>
        let lo := if b = 240 then 144 else 128
        let hi := if b = 244 then 143 else 191
        if lo ≤ c && c ≤ hi && 128 ≤ d && d ≤ 191 && 128 ≤ e && e ≤ 191 then
          (utf8Decode rest4).map
            (fun cs => Char.ofNat
              ((b - 240) * 262144 + (c - 128) * 4096 + (d - 128) * 64 + (e - 128)) :: cs)
        else none
      | _ => none
    else none

/-- Value of an ASCII hex digit (code points 48–57, 97–102, 65–70). -/
def hexDigitVal (c : Char) : Option Nat :=
  let n := c.toNat
  if 48 ≤ n ∧ n ≤ 57 then some (n - 48)
  else if 97 ≤ n ∧ n ≤ 102 then some (n - 87)
  else if 65 ≤ n ∧ n ≤ 70 then some (n - 55)
  else none

/-- Percent-decoding at the byte level: each `%XY` (byte 37 followed by two
hex-digit bytes) becomes the byte `0xXY`; a `%` not followed by two hex digits
is an error. -/
def pctDecode : List Nat → Option (List Nat)
  | [] => some []
  | 37 :: h :: l :: rest =>
    match hexDigitVal (Char.ofNat h), hexDigitVal (Char.ofNat l) with
    | some hv, some lv => (pctDecode rest).map (fun bs => (hv * 16 + lv) :: bs)
    | _, _ => none
  | 37 :: _ => none
  | b :: rest => (pctDecode rest).map (fun bs => b :: bs)

/-- Models the platform `decodeURIComponent`: percent-escapes are decoded at
the UTF-8 byte level; a malformed escape or an invalid UTF-8 sequence throws a
`URIError`, modelled as `none`. -/
def decodeURIComponent (s : String) : Option String :=
  ((pctDecode (utf8Encode s)).bind utf8Decode).map String.mk

/-- Models `STATUS_TEXT` of `https://deno.land/std@0.120.0/http/http_status.ts`
(external dependency imported at `src/worker/ga4.ts` line 4): the standard
reason-phrase table, `none` for unknown codes. -/
def STATUS_TEXT (status : Nat) : Option String :=
  match status with
  | 100 => some "Continue"
  | 101 => some "Switching Protocols"
  | 102 => some "Processing"
  | 103 => some "Early Hints"
  | 200 => some "OK"
  | 201 => some "Created"
  | 202 => some "Accepted"
  | 203 => some "Non Authoritative Info"
  | 204 => some "No Content"
  | 205 => some "Reset Content"
  | 206 => some "Partial Content"
  | 207 => some "Multi Status"
  | 208 => some "Already Reported"
  | 226 => some "IM Used"
  | 300 => some "Multiple Choices"
  | 301 => some "Moved Permanently"
  | 302 => some "Found"
  | 303 => some "See Other"
  | 304 => some "Not Modified"
  | 305 => some "Use Proxy"
  | 307 => some "Temporary Redirect"
  | 308 => some "Permanent Redirect"
  | 400 => some "Bad Request"
  | 401 => some "Unauthorized"
  | 402 => some "Payment Required"
  | 403 => some "Forbidden"
  | 404 => some "Not Found"
  | 405 => some "Method Not Allowed"
  | 406 => some "Not Acceptable"
  | 407 => some "Proxy Auth Required"
  | 408 => some "Request Timeout"
  | 409 => some "Conflict"
  | 410 => some "Gone"
  | 411 => some "Length Required"
  | 412 => some "Precondition Failed"
  | 413 => some "Request Entity Too Large"
  | 414 => some "Request URI Too Long"
  | 415 => some "Unsupported Media Type"
  | 416 => some "Requested Range Not Satisfiable"
  | 417 => some "Expectation Failed"
  | 418 => some "Teapot"
  | 421 => some "Misdirected Request"
  | 422 => some "Unprocessable Entity"
  | 423 => some "Locked"
  | 424 => some "Failed Dependency"
  | 425 => some "Too Early"
  | 426 => some "Upgrade Required"
  | 428 => some "Precondition Required"
  | 429 => some "Too Many Requests"
  | 431 => some "Request Header Fields Too Large"
  | 451 => some "Unavailable For Legal Reasons"
  | 500 => some "Internal Server Error"
  | 501 => some "Not Implemented"
  | 502 => some "Bad Gateway"
  | 503 => some "Service Unavailable"
  | 504 => some "Gateway Timeout"
  | 505 => some "HTTP Version Not Supported"
  | 506 => some "Variant Also Negotiates"
  | 507 => some "Insufficient Storage"
  | 508 => some "Loop Detected"
  | 510 => some "Not Extended"
  | 511 => some "Network Authentication Required"
  | _ => none

/-! ## Report builder (`src/worker/ga4.ts` lines 252–341) -/

/-- `formatStatus` (lines 332–336): `statusText ||= STATUS_TEXT.get(status) ??
"Invalid Status"` — the table is consulted only when `statusText` is falsy
(the empty string). -/
def formatStatus (response : ResponseM) : String :=
  let st :=
    if response.statusText == "" then (STATUS_TEXT response.status).getD "Invalid Status"
    else response.statusText
  toString response.status ++ " " ++ st

/-- `isSuccess` (lines 338–341): `status >= 200 && status <= 299`. -/
def isSuccess (response : ResponseM) : Bool :=
  decide (200 ≤ response.status) && decide (response.status ≤ 299)

/-- `isRedirect` (lines 343–346). -/
def isRedirect (response : ResponseM) : Bool :=
  decide (300 ≤ response.status) && decide (response.status ≤ 399)

/-- `isServerError` (lines 348–351). -/
def isServerError (response : ResponseM) : Bool :=
  decide (500 ≤ response.status) && decide (response.status ≤ 599)

/-- The JS `\\s` class (ASCII part) used by the title-cleaning regexes. -/
def jsWs (c : Char) : Bool :=
  c == ' ' || c == '\t' || c == '\n' || c == '\r' || c == '\x0B' || c == '\x0C'

/-- `replace(/\\.[^\\/]*$/, "")`: delete from the leftmost `'.'` that has no
`'/'` after it, to the end. -/
def stripExtension : List Char → List Char
  | [] => []
  | '.' :: rest => if rest.contains '/' then '.' :: stripExtension rest else []
  | c :: rest => c :: stripExtension rest

/-- Helper for `splitSlashes`: `lastSep` is true while inside a separator run,
`cur` is the current (reversed) component. -/
def splitSlashesAux (lastSep : Bool) (cur : List Char) : List Char → List (List Char)
  | [] => [cur.reverse]
  | c :: rest =>
    if c == '/' then
      if lastSep then splitSlashesAux true [] rest
      else cur.reverse :: splitSlashesAux true [] rest
    else splitSlashesAux false (c :: cur) rest

/-- `split(/\\/+/)`: split on maximal runs of slashes, keeping empty leading
and trailing components, as JS `String.prototype.split` does. -/
def splitSlashes (cs : List Char) : List (List Char) :=
  splitSlashesAux false [] cs

/-- Helper for `collapseWs`: `inRun` is true while inside a `[\\s_]+` run. -/
def collapseWsAux (inRun : Bool) : List Char → List Char
  | [] => []
  | c :: rest =>
    if jsWs c || c == '_' then
      if inRun then collapseWsAux true rest else ' ' :: collapseWsAux true rest
    else c :: collapseWsAux false rest

/-- `replace(/[\\s_]+/g, " ")`: collapse each run of whitespace/underscores to
one space. -/
def collapseWs (cs : List Char) : List Char :=
  collapseWsAux false cs

/-- Character class `[\\d\\.\\s]` of the version-stripping regex. -/
def versionChar (c : Char) : Bool :=
  c.isDigit || c == '.' || jsWs c

/-- Does a suffix match `v?[\\d\\.\\s]+$` (what must follow the `'@'`)? -/
def versionTailMatches : List Char → Bool
  | 'v' :: rest => !rest.isEmpty && rest.all versionChar
  | cs => !cs.isEmpty && cs.all versionChar

/-- `replace(/@v?[\\d\\.\\s]+$/, "")`: delete from the leftmost `'@'` whose
tail matches the version pattern, to the end. -/
def stripVersion : List Char → List Char
  | [] => []
  | '@' :: rest => if versionTailMatches rest then [] else '@' :: stripVersion rest
  | c :: rest => c :: stripVersion rest

/-- `String.prototype.trim` (ASCII whitespace). -/
def trimChars (cs : List Char) : List Char :=
  ((cs.dropWhile jsWs).reverse.dropWhile jsWs).reverse

/-- `getPageTitle` (lines 311–330).  For a GET/HEAD request with a 2xx
response the title is derived from the URL path (strip a trailing file
extension, split on slash runs, URL-decode, collapse whitespace/underscores,
strip a trailing `@version`, trim, drop empties, join with `" / "`, empty
result becoming `"(top level)"`); otherwise it is the lower-cased status
line.  `Except.error ()` models an exception thrown by `new URL` or
`decodeURIComponent`. -/
def getPageTitle (request : RequestM) (response : ResponseM) : Except Unit String :=
  if (request.method == "GET" || request.method == "HEAD") && isSuccess response then
    match parseUrl request.url with
    | none => Except.error ()
    | some u =>
      match (splitSlashes (stripExtension u.pathname.toList)).mapM
          (fun seg => decodeURIComponent (String.mk seg)) with
      | none => Except.error ()
      | some decoded =>
        let cleaned :=
          (((decoded.map (fun s => String.mk (collapseWs s.toList))).map
              (fun s => String.mk (stripVersion s.toList))).map
            (fun s => String.mk (trimChars s.toList))).filter (fun s => s != "")
        let joined := String.intercalate " / " cleaned
        Except.ok (if joined == "" then "(top level)" else joined)
  else
    Except.ok (jsToLower (formatStatus response))

/-- `getPageReferrer` (lines 302–309): keep the `referer` header only when its
host differs from the request's own host; `new URL` on an unparsable referrer
(or request URL) throws, modelled as `Except.error ()`. -/
def getPageReferrer (request : RequestM) : Except Unit (Option String) :=
  match headerGet request.headers "referer" with
  | none => Except.ok none
  | some ref =>
    match parseUrl ref with
    | none => Except.error ()
    | some u =>
      match parseUrl request.url with
      | none => Except.error ()
      | some v => Except.ok (if u.host != v.host then some ref else none)

/-- First element of `split(/\\s*,\\s*/)`: everything before the first comma,
with the whitespace adjacent to that comma removed (the whole string when
there is no comma). -/
def firstForwarded (s : String) : String :=
  let pre := s.toList.takeWhile (fun c => c != ',')
  if pre.length = s.toList.length then s
  else String.mk (pre.reverse.dropWhile jsWs).reverse

/-- `getClientIp` (lines 252–259): the first entry of a non-empty
`x-forwarded-for` header, else the connection's remote address. -/
def getClientIp (request : RequestM) (remoteAddr : String) : String :=
  match headerGet request.headers "x-forwarded-for" with
  | some s => if s == "" then remoteAddr else firstForwarded s
  | none => remoteAddr

/-- The character class `[a-z-]` (case-insensitive) of `getClientLanguage`. -/
def langChar (c : Char) : Bool :=
  c.isAlpha || c == '-'

/-- `getClientLanguage` (lines 261–271): the first maximal run of
letters/hyphens in `accept-language`, lower-cased; `none` when the header is
missing or has no such run. -/
def getClientLanguage (request : RequestM) : Option String :=
  match headerGet request.headers "accept-language" with
  | none => none
  | some al =>
    let run := (al.toList.dropWhile (fun c => !langChar c)).takeWhile langChar
    if run.isEmpty then none
    else some (String.mk (run.map Char.toLower))

/-- `getClientHeaders` (lines 273–280): keep only `user-agent`, `sec-ch-ua`
and `sec-ch-ua-*` headers. -/
def getClientHeaders (hs : List (String × String)) : List (String × String) :=
  hs.filter (fun h =>
    let n := jsToLower h.1
    n == "user-agent" || n == "sec-ch-ua" || "sec-ch-ua-".toList.isPrefixOf n.toList)

/-- `getSession` (lines 286–300): the session cached for the connection, or a
fresh one with `engaged = true`, `start = true`, `hitCount = 0` (`freshId` and
`freshNumber` stand for the random id and the minutes-since-2020 session
number computed by the platform). -/
def getSession (cached : Option Session) (freshId : String) (freshNumber : Nat) : Session :=
  match cached with
  | some s => s
  | none => { id := freshId, number := freshNumber, engaged := true, start := some true, hitCount := 0 }

/-- The `GA4Report` constructor (lines 77–97).  `remoteAddr` is the connection
remote address, `cachedSession` the per-connection session cache entry.
Exceptions escaping the constructor (from `new URL`/`decodeURIComponent` in
the title and referrer derivations) are modelled as `Except.error ()`; the
source evaluates the title before the referrer. -/
def mkGA4Report (measurementId : Option String) (request : RequestM)
    (response : ResponseM) (remoteAddr : String) (cachedSession : Option Session)
    (freshId : String) (freshNumber : Nat) : Except Unit GA4Report := do
  let title ← getPageTitle request response
  let referrer ← getPageReferrer request
  Except.ok
    { measurementId := measurementId
      client :=
        { id := none
          ip := some (getClientIp request remoteAddr)
          language := getClientLanguage request
          headers := getClientHeaders request.headers }
      user := { id := none, properties := [] }
      session := some (getSession cachedSession freshId freshNumber)
      campaign := none
      page :=
        { location := request.url
          title := title
          referrer := referrer
          ignoreReferrer := none
          trafficType := if referrer.isSome then some "referral" else none
          firstVisit := none
          newToSite := none }
      events := [some { name := "page_view", category := none, label := none, params := [] }] }

example : getPageTitle ⟨"GET", "https://deno.land/foo/bar", []⟩ ⟨200, "OK"⟩
    = Except.ok "foo / bar" := by decide
example : getPageTitle ⟨"GET", "https://deno.land/", []⟩ ⟨200, "OK"⟩
    = Except.ok "(top level)" := by decide
example : getPageTitle ⟨"HEAD", "https://deno.land/std/a_b/c%20d.ts", []⟩ ⟨204, ""⟩
    = Except.ok "std / a b / c d" := by decide
example : getPageTitle ⟨"GET", "https://deno.land/x/case@v1.2", []⟩ ⟨200, ""⟩
    = Except.ok "x / case" := by decide
example : getPageTitle ⟨"POST", "https://deno.land/foo", []⟩ ⟨404, ""⟩
    = Except.ok "404 not found" := by decide

/-! ## SHA-1 digest (models `crypto.subtle.digest("SHA-1", ...)` and
`toDigest`, `src/worker/ga4.ts` lines 384–392)

All 32-bit words are `Nat` reduced modulo `2^32`. -/

/-- Truncate to a 32-bit word. -/
def w32 (n : Nat) : Nat := n % 4294967296

/-- Rotate a 32-bit word left by `k` (`0 < k < 32`). -/
def rotl (k n : Nat) : Nat := (n * 2 ^ k + n / 2 ^ (32 - k)) % 4294967296

/-- The SHA-1 round constants. -/
def sha1K (i : Nat) : Nat :=
  if i < 20 then 1518500249
  else if i < 40 then 1859775393
  else if i < 60 then 2400959708
  else 3395469782

/-- The SHA-1 round functions (choose / parity / majority). -/
def sha1F (i b c d : Nat) : Nat :=
  if i < 20 then (b &&& c) ||| ((b ^^^ 4294967295) &&& d)
  else if i < 40 then b ^^^ c ^^^ d
  else if i < 60 then (b &&& c) ||| (b &&& d) ||| (c &&& d)
  else b ^^^ c ^^^ d

/-- SHA-1 padding: append `0x80`, zero bytes to 56 mod 64, and the bit length
as eight big-endian bytes. -/
def sha1Pad (msg : List Nat) : List Nat :=
  let len := msg.length
  let zeros := (120 - (len + 1) % 64) % 64
  msg ++ 128 :: List.replicate zeros 0 ++
    (List.range 8).map (fun i => 8 * len / 2 ^ (8 * (7 - i)) % 256)

/-- Split a byte list into 64-byte blocks (`cur` is the reversed current
block, `n` its length). -/
def sha1BlocksAux (cur : List Nat) (n : Nat) : List Nat → List (List Nat)
  | [] => if cur.isEmpty then [] else [cur.reverse]
  | b :: rest =>
    if n = 63 then (b :: cur).reverse :: sha1BlocksAux [] 0 rest
    else sha1BlocksAux (b :: cur) (n + 1) rest

/-- Big-endian 32-bit words from bytes. -/
def bytesToWords : List Nat → List Nat
  | a :: b :: c :: d :: rest => (((a * 256 + b) * 256 + c) * 256 + d) :: bytesToWords rest
  | _ => []

/-- Extend the sixteen block words to the eighty schedule words. -/
def extendWords (ws : List Nat) : List Nat :=
  (List.range 64).foldl
    (fun acc _ =>
      let n := acc.length
      acc ++ [rotl 1 (acc.getD (n - 3) 0 ^^^ acc.getD (n - 8) 0 ^^^
        acc.getD (n - 14) 0 ^^^ acc.getD (n - 16) 0)])
    ws

/-- The eighty SHA-1 rounds over the schedule words. -/
def sha1Rounds (ws : List Nat) (st : Nat × Nat × Nat × Nat × Nat) :
    Nat × Nat × Nat × Nat × Nat :=
  ws.enum.foldl
    (fun st iw =>
      let a := st.1
      let b := st.2.1
      let c := st.2.2.1
      let d := st.2.2.2.1
      let e := st.2.2.2.2
      (w32 (rotl 5 a + sha1F iw.1 b c d + e + sha1K iw.1 + iw.2), a, rotl 30 b, c, d))
    st

/-- Process one 64-byte block. -/
def sha1Block (h : Nat × Nat × Nat × Nat × Nat) (block : List Nat) :
    Nat × Nat × Nat × Nat × Nat :=
  let st := sha1Rounds (extendWords (bytesToWords block)) h
  (w32 (h.1 + st.1), w32 (h.2.1 + st.2.1), w32 (h.2.2.1 + st.2.2.1),
   w32 (h.2.2.2.1 + st.2.2.2.1), w32 (h.2.2.2.2 + st.2.2.2.2))

/-- SHA-1 of a byte list, as the twenty digest bytes. -/
def sha1Bytes (msg : List Nat) : List Nat :=
  let h := (sha1BlocksAux [] 0 (sha1Pad msg)).foldl sha1Block
    (1732584193, 4023233417, 2562383102, 271733878, 3285377520)
  ([h.1, h.2.1, h.2.2.1, h.2.2.2.1, h.2.2.2.2].map
    (fun w => [w / 16777216 % 256, w / 65536 % 256, w / 256 % 256, w % 256])).flatten

/-- The lowercase hex digit for a nibble (0–9 map to code points 48–57,
10–15 to 97–102). -/
def hexDigitChar (n : Nat) : Char :=
  if n < 10 then Char.ofNat (48 + n) else Char.ofNat (87 + n)

/-- `b.toString(16).padStart(2, "0")` for a byte: two lowercase hex digits. -/
def byteToHex (b : Nat) : String :=
  String.mk [hexDigitChar (b / 16 % 16), hexDigitChar (b % 16)]

/-- `toDigest` (lines 387–392): the lowercase hex SHA-1 digest of the UTF-8
encoding of the message. -/
def toDigest (msg : String) : String :=
  String.join ((sha1Bytes (utf8Encode msg)).map byteToHex)

/-! ## Report encoder/sender (`src/worker/ga4.ts` lines 107–245)

The query-parameter construction (lines 135–187) is a straight-line sequence
of `maybeAddShortParam`/`maybeAddCustomEventParam` calls; it is embedded as a
fold of the two call kinds over the instruction list `instrs`, which lists the
calls in exactly the source order. -/

/-- One parameter-adding call of the query-string construction. -/
inductive Instr where
  | short (name : String) (value : Option Primitive)
  | custom (pfx name : String) (value : Option Primitive)
deriving Repr, DecidableEq

/-- Perform one call on the accumulated record. -/
def applyInstr (ps : List (String × String)) : Instr → List (String × String)
  | .short name v => maybeAddShortParam ps name v
  | .custom pfx name v => maybeAddCustomEventParam ps pfx name v

/-- The parameter-adding calls of `GA4Report.send`, lines 138–187, in source
order: `v`, `tid`, `cid`, `ul`, `_uip`, `uid`, the campaign fields, the
session fields, the page fields; then — only when the primary event is
non-null — `ep.event_category`, `ep.event_label`, the event's custom params,
`en`, `_fv`, `_nsi`, `_ss`; and in all cases the user-property params. -/
def instrs (r : GA4Report) : List Instr :=
  [Instr.short "v" (some (Primitive.pNum 2)),
   Instr.short "tid" (r.measurementId.map Primitive.pStr),
   Instr.short "cid" (r.client.id.map Primitive.pStr),
   Instr.short "ul" (r.client.language.map Primitive.pStr),
   Instr.short "_uip" (r.client.ip.map Primitive.pStr),
   Instr.short "uid" (r.user.id.map Primitive.pStr),
   Instr.short "cs" (r.campaign.map (fun c => Primitive.pStr c.source)),
   Instr.short "cm" (r.campaign.map (fun c => Primitive.pStr c.medium)),
   Instr.short "ci" ((r.campaign.bind Campaign.id).map Primitive.pStr),
   Instr.short "cn" ((r.campaign.bind Campaign.name).map Primitive.pStr),
   Instr.short "cc" ((r.campaign.bind Campaign.content).map Primitive.pStr),
   Instr.short "ck" ((r.campaign.bind Campaign.term).map Primitive.pStr),
   Instr.short "sid" (r.session.map (fun s => Primitive.pStr s.id)),
   Instr.short "sct" (r.session.map (fun s => Primitive.pNum (s.number : Int))),
   Instr.short "seg" (r.session.map (fun s => Primitive.pBool s.engaged)),
   Instr.short "_s" (r.session.map (fun s => Primitive.pNum (s.hitCount : Int))),
   Instr.short "dl" (some (Primitive.pStr r.page.location)),
   Instr.short "dr" (r.page.referrer.map Primitive.pStr),
   Instr.short "dt" (some (Primitive.pStr r.page.title)),
   Instr.short "ir" (r.page.ignoreReferrer.map Primitive.pBool),
   Instr.short "tt" (r.page.trafficType.map Primitive.pStr)]
  ++ (match r.event with
      | none => []
      | some ev =>
        [Instr.custom "ep" "event_category" (ev.category.map Primitive.pStr),
         Instr.custom "ep" "event_label" (ev.label.map Primitive.pStr)]
        ++ ev.params.map (fun p => Instr.custom "ep" p.1 (some p.2))
        ++ [Instr.short "en" (some (Primitive.pStr ev.name)),
            Instr.short "_fv" (r.page.firstVisit.map Primitive.pBool),
            Instr.short "_nsi" (r.page.newToSite.map Primitive.pBool),
            Instr.short "_ss" ((r.session.bind Session.start).map Primitive.pBool)])
  ++ r.user.properties.map (fun p => Instr.custom "up" p.1 (some p.2))

/-- The query-parameter record of `GA4Report.send` (lines 135–187): the
parameter-adding calls performed left to right on an initially empty record. -/
def buildQueryParams (r : GA4Report) : List (String × String) :=
  (instrs r).foldl applyInstr []

/-- The body lines for the secondary events (lines 189–206): for each extra
event, a fresh record with `en` placed before the event's custom params. -/
def extraEventParams (ev : Event) : List (String × String) :=
  ev.params.foldl
    (fun ps p => maybeAddCustomEventParam ps "ep" p.1 (some p.2))
    (maybeAddCustomEventParam
      (maybeAddCustomEventParam
        (maybeAddShortParam [] "en" (some (Primitive.pStr ev.name)))
        "ep" "event_category" (ev.category.map Primitive.pStr))
      "ep" "event_label" (ev.label.map Primitive.pStr))

/-- Fetch response as `GA4Report.send` observes it. -/
structure Resp where
  status : Nat
  statusText : String
deriving Repr, DecidableEq

/-- `Response.ok`: status in 200–299. -/
def Resp.ok (resp : Resp) : Bool :=
  decide (200 ≤ resp.status) && decide (resp.status ≤ 299)

/-- Result of one `send` invocation: whether the HTTP request was issued, the
warnings logged (in order), the query parameters of the issued request, and
the post-state of the report (the fields `send` may mutate: `measurementId`,
`client.id`, the session). -/
structure SendResult where
  sent : Bool
  warnings : List String
  queryParams : List (String × String)
  report : GA4Report
deriving Repr, DecidableEq

/-- The warning of lines 115–118. -/
def midWarning : String :=
  "GA4_MEASUREMENT_ID environment variable not set. Google Analytics reporting disabled."

/-- The warning of line 123. -/
def clientWarning : String :=
  "either `client.id` or `client.ip` must be set."

/-- The warning of lines 236–239 (status/duration report). -/
def uploadWarning (eventCount dur : Nat) (resp : Resp) : String :=
  toString eventCount ++ " events uploaded in " ++ toString dur ++ "ms. Response: " ++
    toString resp.status ++ " " ++ resp.statusText

/-- The comma-join of line 125–129: `[ip, ua, secChUa].join()` with absent
headers contributing the empty string. -/
def digestMaterial (c : Client) (ip : String) : String :=
  ip ++ "," ++ (headerGet c.headers "user-agent").getD "" ++ "," ++
    (headerGet c.headers "sec-ch-ua").getD ""

/-- `this.events.filter(Boolean).length || 1` (line 231). -/
def hitIncrement (events : List (Option Event)) : Nat :=
  let c := (events.filter Option.isSome).length
  if c = 0 then 1 else c

/-- The tail of `send` from line 135 on, after id resolution: build the query
parameters, issue the fetch, and on a successful (`ok`) response clear the
session `start` flag (if the primary event was sent) and bump `hitCount`
(lines 222–244).  `fetchResp = none` models the fetch throwing (caught at
line 242); `dur` is the measured upload duration in ms. -/
def sendUpload (r : GA4Report) (fetchResp : Option Resp) (dur : Nat) : SendResult :=
  let qp := buildQueryParams r
  match fetchResp with
  | none =>
    { sent := true, warnings := ["Upload failed: error"], queryParams := qp, report := r }
  | some resp =>
    let r2 :=
      match r.session with
      | none => r
      | some s =>
        if resp.ok then
          let s2 : Session :=
            { s with
              start := if r.event.isSome then none else s.start,
              hitCount := s.hitCount + hitIncrement r.events }
          { r with session := some s2 }
        else r
    let warns :=
      if resp.status ≠ 204 ∨ 1000 ≤ dur then [uploadWarning r.events.length dur resp]
      else []
    { sent := true, warnings := warns, queryParams := qp, report := r2 }

/-- `this.measurementId ??= Deno.env.get("GA4_MEASUREMENT_ID")` (line 113):
assign the environment default only when the field is null/undefined. -/
def resolveMid (r : GA4Report) (envMid : Option String) : Option String :=
  match r.measurementId with
  | some m => some m
  | none => envMid

/-- `GA4Report.send` (lines 107–245).  `envMid` is the environment default
`GA4_MEASUREMENT_ID`.  In order: short-circuit when no event is truthy;
resolve the measurement id (`??=` then falsy test) or warn and abort; resolve
the client id from the IP/header digest or warn and abort; then upload. -/
def send (r : GA4Report) (envMid : Option String) (fetchResp : Option Resp)
    (dur : Nat) : SendResult :=
  if r.events.any Option.isSome = false then
    { sent := false, warnings := [], queryParams := [], report := r }
  else
    let mid := resolveMid r envMid
    let r1 := { r with measurementId := mid }
    if mid = none ∨ mid = some "" then
      { sent := false, warnings := [midWarning], queryParams := [], report := r1 }
    else
      match r1.client.id with
      | some _ => sendUpload r1 fetchResp dur
      | none =>
        match r1.client.ip with
        | none =>
          { sent := false, warnings := [clientWarning], queryParams := [], report := r1 }
        | some ip =>
          sendUpload
            { r1 with client :=
              { r1.client with id := some (toDigest (digestMaterial r1.client ip)) } }
            fetchResp dur

/-! ## The emitted key/value pairs of the parameter-adding calls -/

/-- The pair a short-parameter call emits (empty when omitted). -/
def shortPair (name : String) : Option Primitive → List (String × String)
  | none => []
  | some .pNull => []
  | some (.pBool b) => [(name, if b then "1" else "0")]
  | some v => [(name, primToString v)]

/-- The pair a custom-parameter call emits (empty when omitted). -/
def customPair (pfx name : String) : Option Primitive → List (String × String)
  | none => []
  | some v => [(wireKey pfx name v, primToString v)]

/-- The pair an instruction emits. -/
def instrPair : Instr → List (String × String)
  | .short n v => shortPair n v
  | .custom p n v => customPair p n v

/-- Is a short parameter present (the value is neither `undefined` nor
`null`)?  Spec §4.2 step 5. -/
def presentShort : Option Primitive → Bool
  | none => false
  | some .pNull => false
  | some _ => true

/-- The key a short parameter occupies in the claimed order, per the spec:
present unless the value is null/undefined. -/
def skey (k : String) (v : Option Primitive) : List String :=
  if presentShort v then [k] else []

/-- The key a custom parameter occupies in the claimed order, per the spec:
present unless the value is undefined, named by `wireKey`. -/
def ckey (pfx name : String) : Option Primitive → List String
  | none => []
  | some v => [wireKey pfx name v]

/-- The key sequence claimed by the spec (§4.2 step 4): `v`, `tid`, `cid`,
`ul`, `_uip`, `uid`, campaign fields `cs cm ci cn cc ck`, session fields
`sid sct seg _s`, page fields `dl dr dt ir tt`, then — only when the primary
event is non-null — `ep.event_category`, `ep.event_label`, each user-supplied
event param, `en`, `_fv`, `_nsi`, `_ss`, and in all cases the user-property
params. -/
def specKeys (r : GA4Report) : List String :=
  ([skey "v" (some (Primitive.pNum 2)),
    skey "tid" (r.measurementId.map Primitive.pStr),
    skey "cid" (r.client.id.map Primitive.pStr),
    skey "ul" (r.client.language.map Primitive.pStr),
    skey "_uip" (r.client.ip.map Primitive.pStr),
    skey "uid" (r.user.id.map Primitive.pStr),
    skey "cs" (r.campaign.map (fun c => Primitive.pStr c.source)),
    skey "cm" (r.campaign.map (fun c => Primitive.pStr c.medium)),
    skey "ci" ((r.campaign.bind Campaign.id).map Primitive.pStr),
    skey "cn" ((r.campaign.bind Campaign.name).map Primitive.pStr),
    skey "cc" ((r.campaign.bind Campaign.content).map Primitive.pStr),
    skey "ck" ((r.campaign.bind Campaign.term).map Primitive.pStr),
    skey "sid" (r.session.map (fun s => Primitive.pStr s.id)),
    skey "sct" (r.session.map (fun s => Primitive.pNum (s.number : Int))),
    skey "seg" (r.session.map (fun s => Primitive.pBool s.engaged)),
    skey "_s" (r.session.map (fun s => Primitive.pNum (s.hitCount : Int))),
    skey "dl" (some (Primitive.pStr r.page.location)),
    skey "dr" (r.page.referrer.map Primitive.pStr),
    skey "dt" (some (Primitive.pStr r.page.title)),
    skey "ir" (r.page.ignoreReferrer.map Primitive.pBool),
    skey "tt" (r.page.trafficType.map Primitive.pStr)]).flatten
  ++ (match r.event with
      | none => []
      | some ev =>
        ckey "ep" "event_category" (ev.category.map Primitive.pStr)
        ++ ckey "ep" "event_label" (ev.label.map Primitive.pStr)
        ++ (ev.params.map (fun p => ckey "ep" p.1 (some p.2))).flatten
        ++ ([skey "en" (some (Primitive.pStr ev.name)),
             skey "_fv" (r.page.firstVisit.map Primitive.pBool),
             skey "_nsi" (r.page.newToSite.map Primitive.pBool),
             skey "_ss" ((r.session.bind Session.start).map Primitive.pBool)]).flatten)
  ++ (r.user.properties.map (fun p => ckey "up" p.1 (some p.2))).flatten

@[simp]
theorem shortPair_keys (n : String) (v : Option Primitive) :
    (shortPair n v).map Prod.fst = skey n v := by
  match v with
  | none => rfl
  | some .pNull => rfl
  | some (.pBool _) => rfl
  | some (.pBigInt _) => rfl
  | some (.pNum _) => rfl
  | some (.pStr _) => rfl

@[simp]
theorem customPair_keys (p n : String) (v : Option Primitive) :
    (customPair p n v).map Prod.fst = ckey p n v := by
  cases v <;> rfl

theorem jsInsert_fresh (ps : List (String × String)) (k v : String)
    (h : k ∉ ps.map Prod.fst) : jsInsert ps k v = ps ++ [(k, v)] := by
  have hany : ps.any (fun p => p.1 == k) = false := by
    rw [List.any_eq_false]
    intro p hp
    simp only [beq_iff_eq]
    intro he
    exact h (he ▸ List.mem_map_of_mem Prod.fst hp)
  simp [jsInsert, hany]

theorem applyInstr_fresh (ps : List (String × String)) (i : Instr)
    (h : ∀ k ∈ (instrPair i).map Prod.fst, k ∉ ps.map Prod.fst) :
    applyInstr ps i = ps ++ instrPair i := by
  match i with
  | .short n v =>
    match v with
    | none => simp [applyInstr, maybeAddShortParam, instrPair, shortPair]
    | some .pNull => simp [applyInstr, maybeAddShortParam, instrPair, shortPair]
    | some (.pBool b) =>
      have := jsInsert_fresh ps n (if b then "1" else "0")
        (h n (by simp [instrPair, shortPair]))
      simpa [applyInstr, maybeAddShortParam, instrPair, shortPair] using this
    | some (.pBigInt i) =>
      have := jsInsert_fresh ps n (primToString (.pBigInt i))
        (h n (by simp [instrPair, shortPair]))
      simpa [applyInstr, maybeAddShortParam, instrPair, shortPair] using this
    | some (.pNum m) =>
      have := jsInsert_fresh ps n (primToString (.pNum m))
        (h n (by simp [instrPair, shortPair]))
      simpa [applyInstr, maybeAddShortParam, instrPair, shortPair] using this
    | some (.pStr s) =>
      have := jsInsert_fresh ps n (primToString (.pStr s))
        (h n (by simp [instrPair, shortPair]))
      simpa [applyInstr, maybeAddShortParam, instrPair, shortPair] using this
  | .custom p n v =>
    match v with
    | none => simp [applyInstr, maybeAddCustomEventParam, instrPair, customPair]
    | some w =>
      have hk := h (wireKey p n w) (by simp [instrPair, customPair])
      have := jsInsert_fresh ps (wireKey p n w) (primToString w) hk
      by_cases hw : isNumericPrim w = true
      · simp only [wireKey, hw, if_pos] at this
        simp [applyInstr, maybeAddCustomEventParam, instrPair, customPair, hw, wireKey, this]
      · simp only [Bool.not_eq_true] at hw
        simp only [wireKey, hw, Bool.false_eq_true, if_neg, not_false_iff] at this
        simp [applyInstr, maybeAddCustomEventParam, instrPair, customPair, hw, wireKey, this]

theorem foldl_applyInstr (is : List Instr) :
    ∀ ps : List (String × String),
      ((ps ++ (is.map instrPair).flatten).map Prod.fst).Nodup →
      is.foldl applyInstr ps = ps ++ (is.map instrPair).flatten := by
  induction is with
  | nil => intro ps _; simp
  | cons i is ih =>
    intro ps h
    rw [List.map_cons, List.flatten_cons] at h ⊢
    have hfresh : ∀ k ∈ (instrPair i).map Prod.fst, k ∉ ps.map Prod.fst := by
      intro k hk hmem
      rw [List.map_append, List.nodup_append] at h
      exact h.2.2 hmem (by rw [List.map_append]; exact List.mem_append_left _ hk)
    rw [List.foldl_cons, applyInstr_fresh ps i hfresh, ← List.append_assoc]
    exact ih (ps ++ instrPair i) (by rwa [List.append_assoc])
example : snakeCase "myMetric" = "my_metric" := by decide
example : snakeCase "event_category" = "event_category" := by decide
example : snakeCase "XMLHttpRequest" = "xml_http_request" := by decide
example : maybeAddCustomEventParam [] "ep" "myMetric" (some (.pNum 42))
    = [("epn.my_metric", "42")] := by decide
example : maybeAddCustomEventParam [] "ep" "myFlag" (some (.pBool true))
    = [("ep.my_flag", "true")] := by decide

theorem map_fst_flatten (L : List (List (String × String))) :
    L.flatten.map Prod.fst = (L.map (fun l => l.map Prod.fst)).flatten := by
  induction L with
  | nil => simp
  | cons a L ih => simp [ih]

/-- The emitted key sequence of the parameter-adding calls is the
spec-claimed key sequence. -/
theorem specKeys_spec (r : GA4Report) :
    ((instrs r).map instrPair).flatten.map Prod.fst = specKeys r := by
  cases hev : r.event <;>
    simp [instrs, specKeys, hev, map_fst_flatten, List.map_map, Function.comp_def, instrPair]

/-- A fully-populated report used to instantiate the claim theorems. -/
def sampleReport : GA4Report :=
  { measurementId := some "G-1"
    client :=
      { id := some "cid1"
        ip := some "1.2.3.4"
        language := some "en-us"
        headers := [("user-agent", "UA"), ("sec-ch-ua", "CH")] }
    user :=
      { id := some "u1"
        properties := [("planType", Primitive.pStr "pro"), ("score", Primitive.pNum 7)] }
    session := some { id := "sess", number := 1000, engaged := true, start := some true, hitCount := 2 }
    campaign := some
      { source := "src", medium := "med", id := none, name := none, content := none, term := none }
    page :=
      { location := "https://deno.land/x"
        title := "x"
        referrer := some "https://example.com/"
        ignoreReferrer := none
        trafficType := some "referral"
        firstVisit := none
        newToSite := none }
    events := [some
      { name := "page_view", category := some "cat", label := none
        params := [("myFlag", Primitive.pBool true), ("myMetric", Primitive.pNum 42)] }] }

/-! ## Claim C1 — parameter value coercion

The claim says every encoder parameter omits null **and** undefined values and
encodes booleans as `"1"`/`"0"`.  That is true of the short parameters
(`maybeAddShortParam`), but `maybeAddCustomEventParam` (used for event-level
and user-property custom params) omits only `undefined`: a null value is
emitted as the string `"null"` and a boolean as `"true"`/`"false"` — in
particular `"myFlag" = true` becomes `ep.my_flag = "true"`, not `"1"`. -/

/-- **C1 (counterexample).**  A custom event parameter named `"myFlag"` with
boolean value `true` is emitted with value `"true"`, not `"1"`, and a custom
parameter with a null value is emitted (as `"null"`) rather than omitted —
refuting the claim that all encoder parameters coerce booleans to `"1"`/`"0"`
and omit nulls. -/
theorem c1_counterexample :
    maybeAddCustomEventParam [] "ep" "myFlag" (some (Primitive.pBool true))
        = [("ep.my_flag", "true")] ∧
    maybeAddCustomEventParam [] "ep" "myFlag" (some (Primitive.pBool true))
        ≠ [("ep.my_flag", "1")] ∧
    maybeAddCustomEventParam [] "up" "note" (some Primitive.pNull)
        = [("up.note", "null")] := by
  decide

/-- **C1 (amended).**  Short parameters omit null/undefined values, encode
booleans as `"1"`/`"0"` and everything else via its string form; custom
parameters (event-level and user-property) omit only undefined values, and
encode every present value via its JS string form — so null becomes `"null"`
and a boolean becomes `"true"`/`"false"` (in particular `"myFlag" = true` is
emitted as `ep.my_flag = "true"`). -/
theorem c1_amended_valueCoercion (ps : List (String × String)) (name pfx str : String)
    (b : Bool) (n i : Int)
    (h1 : name ∉ ps.map Prod.fst)
    (h2 : pfx ++ "." ++ snakeCase name ∉ ps.map Prod.fst)
    (h3 : pfx ++ "n." ++ snakeCase name ∉ ps.map Prod.fst) :
    maybeAddShortParam ps name none = ps ∧
    maybeAddShortParam ps name (some Primitive.pNull) = ps ∧
    maybeAddShortParam ps name (some (Primitive.pBool b))
        = ps ++ [(name, if b then "1" else "0")] ∧
    maybeAddShortParam ps name (some (Primitive.pStr str)) = ps ++ [(name, str)] ∧
    maybeAddShortParam ps name (some (Primitive.pNum n)) = ps ++ [(name, toString n)] ∧
    maybeAddShortParam ps name (some (Primitive.pBigInt i)) = ps ++ [(name, toString i)] ∧
    maybeAddCustomEventParam ps pfx name none = ps ∧
    maybeAddCustomEventParam ps pfx name (some Primitive.pNull)
        = ps ++ [(pfx ++ "." ++ snakeCase name, "null")] ∧
    maybeAddCustomEventParam ps pfx name (some (Primitive.pBool b))
        = ps ++ [(pfx ++ "." ++ snakeCase name, if b then "true" else "false")] ∧
    maybeAddCustomEventParam ps pfx name (some (Primitive.pNum n))
        = ps ++ [(pfx ++ "n." ++ snakeCase name, toString n)] := by
  refine ⟨rfl, rfl, ?_, ?_, ?_, ?_, rfl, ?_, ?_, ?_⟩
  · exact jsInsert_fresh ps name (if b then "1" else "0") h1
  · exact jsInsert_fresh ps name str h1
  · exact jsInsert_fresh ps name (toString n) h1
  · exact jsInsert_fresh ps name (toString i) h1
  · exact jsInsert_fresh ps (pfx ++ "." ++ snakeCase name) "null" h2
  · exact jsInsert_fresh ps (pfx ++ "." ++ snakeCase name) (if b then "true" else "false") h2
  · exact jsInsert_fresh ps (pfx ++ "n." ++ snakeCase name) (toString n) h3

/-- Witness for the amended C1 at concrete inputs. -/
theorem c1_amended_valueCoercion_witness :
    maybeAddShortParam [] "myFlag" none = [] ∧
    maybeAddShortParam [] "myFlag" (some Primitive.pNull) = [] ∧
    maybeAddShortParam [] "myFlag" (some (Primitive.pBool true)) = [("myFlag", "1")] ∧
    maybeAddShortParam [] "myFlag" (some (Primitive.pStr "x")) = [("myFlag", "x")] ∧
    maybeAddShortParam [] "myFlag" (some (Primitive.pNum 42)) = [("myFlag", "42")] ∧
    maybeAddShortParam [] "myFlag" (some (Primitive.pBigInt 7)) = [("myFlag", "7")] ∧
    maybeAddCustomEventParam [] "ep" "myFlag" none = [] ∧
    maybeAddCustomEventParam [] "ep" "myFlag" (some Primitive.pNull)
        = [("ep.my_flag", "null")] ∧
    maybeAddCustomEventParam [] "ep" "myFlag" (some (Primitive.pBool true))
        = [("ep.my_flag", "true")] ∧
    maybeAddCustomEventParam [] "ep" "myFlag" (some (Primitive.pNum 42))
        = [("epn.my_flag", "42")] :=
  c1_amended_valueCoercion [] "myFlag" "ep" "x" true 42 7 (by decide) (by decide) (by decide)

/-! ## Claim C3 — custom parameter naming -/

/-- **C3.**  An emitted custom parameter's name is snake-cased; its wire key
is `"<prefix>n.<name>"` for number/bigint values and `"<prefix>.<name>"`
otherwise; the value is the JS string form.  In particular the event param
`"myMetric" = 42` is emitted as `epn.my_metric = "42"`, and user properties
use the `"up"` prefix. -/
theorem c3_customParamNaming (ps : List (String × String)) (pfx name : String) (v : Primitive)
    (h : wireKey pfx name v ∉ ps.map Prod.fst) :
    maybeAddCustomEventParam ps pfx name (some v)
        = ps ++ [(wireKey pfx name v, primToString v)] ∧
    (isNumericPrim v = true → wireKey pfx name v = pfx ++ "n." ++ snakeCase name) ∧
    (isNumericPrim v = false → wireKey pfx name v = pfx ++ "." ++ snakeCase name) ∧
    maybeAddCustomEventParam [] "ep" "myMetric" (some (Primitive.pNum 42))
        = [("epn.my_metric", "42")] ∧
    maybeAddCustomEventParam [] "up" "bigCount" (some (Primitive.pBigInt 9))
        = [("upn.big_count", "9")] := by
  have hins := jsInsert_fresh ps (wireKey pfx name v) (primToString v) h
  refine ⟨?_, ?_, ?_, by decide, by decide⟩
  · by_cases hw : isNumericPrim v = true
    · simp only [wireKey, hw, if_pos] at hins
      simp [maybeAddCustomEventParam, hw, wireKey, hins]
    · simp only [Bool.not_eq_true] at hw
      simp only [wireKey, hw, Bool.false_eq_true, if_false] at hins
      simp [maybeAddCustomEventParam, hw, wireKey, hins]
  · intro hv; simp [wireKey, hv]
  · intro hv; simp [wireKey, hv]

/-- Witness for C3 at concrete inputs. -/
theorem c3_customParamNaming_witness :
    maybeAddCustomEventParam [] "up" "planType" (some (Primitive.pStr "pro"))
        = [("up.plan_type", "pro")] ∧
    (isNumericPrim (Primitive.pStr "pro") = true →
      wireKey "up" "planType" (Primitive.pStr "pro") = "upn.plan_type") ∧
    (isNumericPrim (Primitive.pStr "pro") = false →
      wireKey "up" "planType" (Primitive.pStr "pro") = "up.plan_type") ∧
    maybeAddCustomEventParam [] "ep" "myMetric" (some (Primitive.pNum 42))
        = [("epn.my_metric", "42")] ∧
    maybeAddCustomEventParam [] "up" "bigCount" (some (Primitive.pBigInt 9))
        = [("upn.big_count", "9")] :=
  c3_customParamNaming [] "up" "planType" (Primitive.pStr "pro") (by decide)

/-! ## Claim C2 — query-parameter key order -/

/-- **C2.**  The query-parameter record the send operation builds emits its
keys in exactly the claimed order — `v`, `tid`, `cid`, `ul`, `_uip`, `uid`,
campaign `cs cm ci cn cc ck`, session `sid sct seg _s`, page `dl dr dt ir tt`,
then (only when the primary event is non-null) `ep.event_category`,
`ep.event_label`, each user-supplied event param, `en`, `_fv`, `_nsi`, `_ss`,
and in all cases the user-property params (`specKeys` transcribes that claimed
order, including the absence of the whole event block when the primary event
is null).  The hypothesis rules out key collisions among the user-supplied
custom parameter names, under which the in-place-overwrite semantics of the
record would merge entries. -/
theorem c2_send_queryParamOrder (r : GA4Report) (h : (specKeys r).Nodup) :
    (buildQueryParams r).map Prod.fst = specKeys r := by
  have hkeys := specKeys_spec r
  have h2 : ((([] : List (String × String))
      ++ ((instrs r).map instrPair).flatten).map Prod.fst).Nodup := by
    simpa [hkeys] using h
  rw [buildQueryParams, foldl_applyInstr (instrs r) [] h2, List.nil_append]
  exact hkeys

/-- Witness for C2 at a fully-populated concrete report. -/
theorem c2_send_queryParamOrder_witness :
    (specKeys sampleReport).Nodup ∧
      (buildQueryParams sampleReport).map Prod.fst = specKeys sampleReport :=
  ⟨by decide, c2_send_queryParamOrder sampleReport (by decide)⟩

/-! ## Claim C7 — no truthy events: silent no-op -/

/-- **C7.**  When no event in the events list is truthy, `send` returns
immediately: no HTTP request, no warning, no state change. -/
theorem c7_noTruthyEvents (r : GA4Report) (envMid : Option String)
    (fetchResp : Option Resp) (dur : Nat)
    (h : r.events.any Option.isSome = false) :
    send r envMid fetchResp dur
      = { sent := false, warnings := [], queryParams := [], report := r } := by
  simp [send, h]

/-- A report whose primary event is set to null and which has no secondary
events. -/
def silentReport : GA4Report :=
  { sampleReport with events := [none] }

/-- Witness for C7: a report with the primary event nulled out and no
secondary events. -/
theorem c7_noTruthyEvents_witness :
    silentReport.events.any Option.isSome = false ∧
    send silentReport none (some ⟨204, ""⟩) 0
      = { sent := false, warnings := [], queryParams := [], report := silentReport } :=
  ⟨by decide, c7_noTruthyEvents silentReport none (some ⟨204, ""⟩) 0 (by decide)⟩

/-! ## Claim C8 — missing measurement id: warn once and abort -/

/-- **C8.**  With at least one truthy event but no measurement id (no explicit
field and no environment default), `send` logs exactly the one warning and
aborts without issuing the HTTP request. -/
theorem c8_noMeasurementId (r : GA4Report) (fetchResp : Option Resp) (dur : Nat)
    (h1 : r.events.any Option.isSome = true)
    (h2 : r.measurementId = none) :
    (send r none fetchResp dur).sent = false ∧
    (send r none fetchResp dur).warnings = [midWarning] := by
  simp [send, h1, h2, resolveMid]

/-- A report with a truthy event but no measurement id override. -/
def unconfiguredReport : GA4Report :=
  { sampleReport with measurementId := none }

/-- Witness for C8. -/
theorem c8_noMeasurementId_witness :
    (send unconfiguredReport none (some ⟨204, ""⟩) 0).sent = false ∧
    (send unconfiguredReport none (some ⟨204, ""⟩) 0).warnings = [midWarning] :=
  c8_noMeasurementId unconfiguredReport (some ⟨204, ""⟩) 0 (by decide) (by decide)

/-! ## Claim C5 — client id resolution -/

theorem sendUpload_sent (r : GA4Report) (fr : Option Resp) (dur : Nat) :
    (sendUpload r fr dur).sent = true := by
  cases fr with
  | none => rfl
  | some resp => rfl

theorem sendUpload_client (r : GA4Report) (fr : Option Resp) (dur : Nat) :
    (sendUpload r fr dur).report.client = r.client := by
  cases fr with
  | none => rfl
  | some resp =>
    cases hs : r.session with
    | none => simp [sendUpload, hs]
    | some s => by_cases hok : resp.ok = true <;> simp [sendUpload, hs, hok]

/-- **C5.**  When the client id is absent: with no IP either, `send` warns and
aborts (no HTTP request); with an IP, the client id becomes the digest of the
comma-joined (IP, user-agent, sec-ch-ua) material and the request is issued;
and the derivation is deterministic — identical (IP, user-agent, sec-ch-ua)
inputs yield the identical digest string.  `toDigest` is the lowercase-hex
SHA-1 implementation modelling `crypto.subtle.digest`. -/
theorem c5_clientIdDerivation (r : GA4Report) (envMid : Option String)
    (fetchResp : Option Resp) (dur : Nat)
    (h1 : r.events.any Option.isSome = true)
    (h2 : ¬(resolveMid r envMid = none ∨ resolveMid r envMid = some ""))
    (h3 : r.client.id = none) :
    (r.client.ip = none →
      (send r envMid fetchResp dur).sent = false ∧
      (send r envMid fetchResp dur).warnings = [clientWarning]) ∧
    (∀ ip, r.client.ip = some ip →
      (send r envMid fetchResp dur).report.client.id
          = some (toDigest (digestMaterial r.client ip)) ∧
      (send r envMid fetchResp dur).sent = true) ∧
    (∀ c c' ip, headerGet c.headers "user-agent" = headerGet c'.headers "user-agent" →
      headerGet c.headers "sec-ch-ua" = headerGet c'.headers "sec-ch-ua" →
      toDigest (digestMaterial c ip) = toDigest (digestMaterial c' ip)) := by
  refine ⟨?_, ?_, ?_⟩
  · intro hip
    constructor <;> simp [send, h1, h2, h3, hip]
  · intro ip hip
    constructor
    · simp [send, h1, h2, h3, hip, sendUpload_client]
    · simp [send, h1, h2, h3, hip, sendUpload_sent]
  · intro c c' ip hua hch
    simp [digestMaterial, hua, hch]

/-- `sampleReport` with the client id removed (only the IP is known). -/
def anonReport : GA4Report :=
  { sampleReport with client :=
    { id := none, ip := some "1.2.3.4", language := some "en-us",
      headers := [("user-agent", "UA"), ("sec-ch-ua", "CH")] } }

/-- Witness for C5. -/
theorem c5_clientIdDerivation_witness :
    (anonReport.client.ip = none →
      (send anonReport none (some ⟨204, ""⟩) 0).sent = false ∧
      (send anonReport none (some ⟨204, ""⟩) 0).warnings = [clientWarning]) ∧
    (∀ ip, anonReport.client.ip = some ip →
      (send anonReport none (some ⟨204, ""⟩) 0).report.client.id
          = some (toDigest (digestMaterial anonReport.client ip)) ∧
      (send anonReport none (some ⟨204, ""⟩) 0).sent = true) ∧
    (∀ c c' ip, headerGet c.headers "user-agent" = headerGet c'.headers "user-agent" →
      headerGet c.headers "sec-ch-ua" = headerGet c'.headers "sec-ch-ua" →
      toDigest (digestMaterial c ip) = toDigest (digestMaterial c' ip)) :=
  c5_clientIdDerivation anonReport none (some ⟨204, ""⟩) 0 (by decide) (by decide) rfl

/-! ## Claims C4 and C10 — session bookkeeping on send -/

theorem hitIncrement_eq_max (events : List (Option Event)) :
    hitIncrement events = max 1 (events.filter Option.isSome).length := by
  simp only [hitIncrement]
  by_cases h : (events.filter Option.isSome).length = 0
  · simp [h]
  · simp [h]
    omega

/-- Case analysis of the session after a `send`: either the session is
untouched, or the fetch response was `ok` and the session got the
lines-227–233 update (`start` cleared when the primary event is present,
`hitCount` bumped). -/
theorem send_session_cases (r : GA4Report) (envMid : Option String)
    (fetchResp : Option Resp) (dur : Nat) :
    (send r envMid fetchResp dur).report.session = r.session ∨
    (∃ resp s, fetchResp = some resp ∧ resp.ok = true ∧ r.session = some s ∧
      (send r envMid fetchResp dur).report.session
        = some { s with start := if r.event.isSome then none else s.start,
                        hitCount := s.hitCount + hitIncrement r.events }) := by
  by_cases h1 : r.events.any Option.isSome = false
  · left; simp [send, h1]
  · by_cases h2 : resolveMid r envMid = none ∨ resolveMid r envMid = some ""
    · left; simp [send, h1, h2]
    · cases hcid : r.client.id with
      | some c =>
        cases fetchResp with
        | none => left; simp [send, h1, h2, hcid, sendUpload]
        | some resp =>
          cases hs : r.session with
          | none => left; simp [send, h1, h2, hcid, sendUpload, hs]
          | some s =>
            by_cases hok : resp.ok = true
            · right
              exact ⟨resp, s, rfl, hok, rfl,
                by simp [send, h1, h2, hcid, sendUpload, hs, hok, GA4Report.event]⟩
            · left; simp [send, h1, h2, hcid, sendUpload, hs, hok]
      | none =>
        cases hip : r.client.ip with
        | none => left; simp [send, h1, h2, hcid, hip]
        | some ip =>
          cases fetchResp with
          | none => left; simp [send, h1, h2, hcid, hip, sendUpload]
          | some resp =>
            cases hs : r.session with
            | none => left; simp [send, h1, h2, hcid, hip, sendUpload, hs]
            | some s =>
              by_cases hok : resp.ok = true
              · right
                exact ⟨resp, s, rfl, hok, rfl,
                  by simp [send, h1, h2, hcid, hip, sendUpload, hs, hok, GA4Report.event]⟩
              · left; simp [send, h1, h2, hcid, hip, sendUpload, hs, hok]

/-- **C4.**  A send that reaches the network and receives a successful (`ok`)
response with a session present and a non-null primary event clears the
session's `start` flag to `undefined` and increments `hitCount` by the number
of truthy events (minimum 1); and once the `start` flag is cleared, no later
send ever sets it back. -/
theorem c4_successClearsSessionStart (r : GA4Report) (envMid : Option String)
    (resp : Resp) (dur : Nat) (s : Session) (ev : Event)
    (hsent : (send r envMid (some resp) dur).sent = true)
    (hok : resp.ok = true)
    (hs : r.session = some s)
    (hev : r.event = some ev) :
    (send r envMid (some resp) dur).report.session
        = some { s with start := none,
                        hitCount := s.hitCount
                          + max 1 (r.events.filter Option.isSome).length } ∧
    (∀ r2 envMid2 fr2 dur2 s2, r2.session = some s2 → s2.start = none →
      ∃ s3, (send r2 envMid2 fr2 dur2).report.session = some s3 ∧ s3.start = none) := by
  have hev2 : r.events.head?.getD none = some ev := by
    simpa [GA4Report.event, List.headD_eq_head?_getD] using hev
  constructor
  · by_cases h1 : r.events.any Option.isSome = false
    · simp [send, h1] at hsent
    · by_cases h2 : resolveMid r envMid = none ∨ resolveMid r envMid = some ""
      · simp [send, h1, h2] at hsent
      · cases hcid : r.client.id with
        | some c =>
          simp [send, h1, h2, hcid, sendUpload, hs, hok, hev2, GA4Report.event,
            hitIncrement_eq_max]
        | none =>
          cases hip : r.client.ip with
          | none => simp [send, h1, h2, hcid, hip] at hsent
          | some ip =>
            simp [send, h1, h2, hcid, hip, sendUpload, hs, hok, hev2, GA4Report.event,
              hitIncrement_eq_max]
  · intro r2 envMid2 fr2 dur2 s2 hs2 hstart
    rcases send_session_cases r2 envMid2 fr2 dur2 with h | ⟨resp2, s4, _, _, hs4, hupd⟩
    · exact ⟨s2, by rw [h, hs2], hstart⟩
    · have hss : s4 = s2 := by
        rw [hs2] at hs4
        exact (Option.some_inj.mp hs4).symm
      refine ⟨_, hupd, ?_⟩
      cases hevt : r2.event.isSome <;> simp [hevt, hss, hstart]

/-- Witness for C4: the sample report sent against a 204 response. -/
theorem c4_successClearsSessionStart_witness :
    (send sampleReport none (some ⟨204, ""⟩) 7).report.session
        = some { id := "sess", number := 1000, engaged := true, start := none,
                 hitCount := 2 + max 1
                   ((sampleReport.events.filter Option.isSome).length) } ∧
    (∀ r2 envMid2 fr2 dur2 s2, r2.session = some s2 → s2.start = none →
      ∃ s3, (send r2 envMid2 fr2 dur2).report.session = some s3 ∧ s3.start = none) :=
  c4_successClearsSessionStart sampleReport none ⟨204, ""⟩ 7
    { id := "sess", number := 1000, engaged := true, start := some true, hitCount := 2 }
    { name := "page_view", category := some "cat", label := none
      params := [("myFlag", Primitive.pBool true), ("myMetric", Primitive.pNum 42)] }
    (by decide) (by decide) rfl rfl

/-- **C10.**  `send` never changes a session's `id`, `number` or `engaged`
fields; the session is entirely unchanged when the response is not `ok` or
the fetch fails; and a freshly created session starts with `engaged = true`
(and `start = true`, `hitCount = 0`), so `engaged`, `id` and `number` keep
their creation-time values for the session's lifetime. -/
theorem c10_sessionFrame (r : GA4Report) (envMid : Option String)
    (fetchResp : Option Resp) (dur : Nat) (freshId : String) (freshNumber : Nat) :
    ((send r envMid fetchResp dur).report.session).map (fun s => (s.id, s.number, s.engaged))
        = r.session.map (fun s => (s.id, s.number, s.engaged)) ∧
    (∀ resp, fetchResp = some resp → resp.ok = false →
      (send r envMid fetchResp dur).report.session = r.session) ∧
    (fetchResp = none → (send r envMid fetchResp dur).report.session = r.session) ∧
    getSession none freshId freshNumber
        = { id := freshId, number := freshNumber, engaged := true,
            start := some true, hitCount := 0 } := by
  refine ⟨?_, ?_, ?_, rfl⟩
  · rcases send_session_cases r envMid fetchResp dur with h | ⟨resp, s, _, _, hs, hupd⟩
    · rw [h]
    · rw [hupd, hs]
      simp
  · intro resp hfr hnok
    subst hfr
    rcases send_session_cases r envMid (some resp) dur with h | ⟨resp2, s, heq, hok2, _, _⟩
    · exact h
    · cases heq
      rw [hnok] at hok2
      cases hok2
  · intro hfr
    subst hfr
    rcases send_session_cases r envMid none dur with h | ⟨resp2, s, heq, _, _, _⟩
    · exact h
    · cases heq

/-- Witness for C10: the sample report against a non-ok (500) response. -/
theorem c10_sessionFrame_witness :
    ((send sampleReport none (some ⟨500, ""⟩) 0).report.session).map
        (fun s => (s.id, s.number, s.engaged))
      = sampleReport.session.map (fun s => (s.id, s.number, s.engaged)) ∧
    (∀ resp, (some (⟨500, ""⟩ : Resp)) = some resp → resp.ok = false →
      (send sampleReport none (some ⟨500, ""⟩) 0).report.session = sampleReport.session) ∧
    ((some (⟨500, ""⟩ : Resp)) = none →
      (send sampleReport none (some ⟨500, ""⟩) 0).report.session = sampleReport.session) ∧
    getSession none "fresh" 77
        = { id := "fresh", number := 77, engaged := true,
            start := some true, hitCount := 0 } :=
  c10_sessionFrame sampleReport none (some ⟨500, ""⟩) 0 "fresh" 77

/-! ## Claim C6 — page title derivation -/

/-- **C6.**  For a GET/HEAD request with a 2xx response the title is derived
from the URL path by the cleaning pipeline (`/foo/bar` gives `"foo / bar"`,
`/` gives `"(top level)"`, and the extension/decode/underscore/version steps
behave as on the sample paths); for every other request/response pair the
title is the lower-cased status line, with `formatStatus` falling back to the
standard reason-phrase table and to `"Invalid Status"` for unknown codes. -/
theorem c6_pageTitle :
    (∀ request response, isSuccess response = false →
      getPageTitle request response = Except.ok (jsToLower (formatStatus response))) ∧
    (∀ request response, request.method ≠ "GET" → request.method ≠ "HEAD" →
      getPageTitle request response = Except.ok (jsToLower (formatStatus response))) ∧
    getPageTitle ⟨"GET", "https://deno.land/foo/bar", []⟩ ⟨200, "OK"⟩
        = Except.ok "foo / bar" ∧
    getPageTitle ⟨"GET", "https://deno.land/", []⟩ ⟨200, "OK"⟩
        = Except.ok "(top level)" ∧
    getPageTitle ⟨"HEAD", "https://deno.land/std/a_b/c%20d.ts", []⟩ ⟨204, ""⟩
        = Except.ok "std / a b / c d" ∧
    getPageTitle ⟨"GET", "https://deno.land/x/case@v1.2", []⟩ ⟨200, ""⟩
        = Except.ok "x / case" ∧
    getPageTitle ⟨"POST", "https://deno.land/foo", []⟩ ⟨404, "Not Found"⟩
        = Except.ok "404 not found" ∧
    (∀ response, response.statusText = "" → STATUS_TEXT response.status = none →
      formatStatus response = toString response.status ++ " " ++ "Invalid Status") := by
  refine ⟨?_, ?_, by decide, by decide, by decide, by decide, by decide, ?_⟩
  · intro request response h
    simp [getPageTitle, h]
  · intro request response hG hH
    simp [getPageTitle, hG, hH]
  · intro response h1 h2
    simp [formatStatus, h1, h2]

/-- Witness for C6's conditional parts at concrete inputs. -/
theorem c6_pageTitle_witness :
    getPageTitle ⟨"GET", "https://deno.land/foo", []⟩ ⟨500, "Oops"⟩
        = Except.ok (jsToLower (formatStatus ⟨500, "Oops"⟩)) ∧
    getPageTitle ⟨"POST", "https://deno.land/foo", []⟩ ⟨200, "OK"⟩
        = Except.ok (jsToLower (formatStatus ⟨200, "OK"⟩)) ∧
    formatStatus ⟨999, ""⟩ = toString 999 ++ " " ++ "Invalid Status" :=
  ⟨c6_pageTitle.1 ⟨"GET", "https://deno.land/foo", []⟩ ⟨500, "Oops"⟩ (by decide),
   c6_pageTitle.2.1 ⟨"POST", "https://deno.land/foo", []⟩ ⟨200, "OK"⟩ (by decide) (by decide),
   c6_pageTitle.2.2.2.2.2.2.2 ⟨999, ""⟩ (by decide) (by decide)⟩

/-! ## Claim C9 — report construction is not total -/

/-- **C9.**  There is an input on which the `GA4Report` constructor throws:
a request carrying a `referer` header whose value is not a parseable absolute
URL makes `new URL` in the referrer derivation throw, even though the
request's own URL is valid and the title derivation succeeds. -/
theorem c9_constructorThrows :
    mkGA4Report none ⟨"GET", "https://deno.land/x", [("referer", "not a url")]⟩
        ⟨200, "OK"⟩ "1.2.3.4" none "abc123" 5 = Except.error () ∧
    getPageTitle ⟨"GET", "https://deno.land/x", [("referer", "not a url")]⟩ ⟨200, "OK"⟩
        = Except.ok "x" ∧
    getPageReferrer ⟨"GET", "https://deno.land/x", [("referer", "not a url")]⟩
        = Except.error () := by
  decide

end GA4
